import Mathlib

/-!
Verification of `cybozu-go/options` (`options.go`) against its specification.

The Go package defines a generic `Option[T]` struct with fields `value : T`
and `present : bool`, plus constructors (`New`, `None`, `FromPointer`,
`FromTuple`), accessors (`IsPresent`, `IsNone`, `Unwrap`, `UnwrapOr`,
`UnwrapOrZero`, `Pointer`), a `Map` combinator, `Equal` (via
`reflect.DeepEqual`), JSON marshalling (via `encoding/json` on `*T`), and
SQL `Value`/`Scan` adapters.

Embedding conventions:
  * Go's zero value of `T` is modelled by `default` from an `Inhabited T`
    instance.
  * A Go pointer `*T` (nil or pointing at a value; aliasing is irrelevant to
    every operation here, which only copies through pointers) is modelled by
    the inductive `Ptr T`.
  * A Go `error` result (nil or an error value) is modelled by `GoError`;
    error construction via `fmt.Errorf` is modelled by string formatting.
  * `reflect.DeepEqual`, a stdlib routine determined by the payload type, is
    modelled by the class `DeepEq` carrying an arbitrary boolean relation;
    concrete instances below model its documented behaviour on the concrete
    payload types used for witnesses and counterexamples.
  * `encoding/json` for the element type `T` is modelled by an abstract
    `JsonCodec T` (encoder into a JSON value tree and fallible decoder);
    `json.Marshal` / `json.Unmarshal` at type `*T` — which is exactly how
    `Option[T]` uses them — are derived from it (`encPtr` / `decPtr`)
    following encoding/json's pointer rule: nil encodes to `null`, `null`
    decodes to nil.
  * `driver.DefaultParameterConverter.ConvertValue` and the Go type
    assertion `av.(T)` in `Scan` are modelled by abstract parameters
    (`SQLDriver`, `SQLCast`): a fallible conversion into the driver value
    universe, and a checked cast that either yields a `T` or fails.
  * Go methods that mutate the receiver and return an `error`
    (`UnmarshalJSON`, `Scan`) are modelled as functions returning the new
    receiver state paired with the `GoError`; each Go `return` statement
    corresponds to one pair.
-/

namespace Options

/-- A Go pointer `*T`: nil, or a pointer to a value of `T`.  The operations
verified here only ever copy through pointers, so identity/aliasing is not
modelled. -/
inductive Ptr (T : Type) where
  | null : Ptr T
  | mk (v : T) : Ptr T
deriving DecidableEq

/-- A Go `error` return value: nil, or an error carrying a message. -/
inductive GoError where
  | nil : GoError
  | err (msg : String) : GoError
deriving DecidableEq

/-- `Option[T]` from `options.go`:
`struct { value T; present bool }`. -/
structure Option (T : Type) where
  value : T
  present : Bool
deriving DecidableEq

/-- `New` from `options.go`: wraps a value, with `present = true`. -/
def New {T : Type} (value : T) : Option T :=
  { value := value, present := true }

/-- `None` from `options.go`: returns `Option[T]{}`, the zero value of the
struct — zero value of `T` and `present = false`. -/
def None (T : Type) [Inhabited T] : Option T :=
  { value := default, present := false }

/-- `FromPointer` from `options.go`: `None` for a nil pointer, else `New` of
the pointed-to value. -/
def FromPointer {T : Type} [Inhabited T] (ptr : Ptr T) : Option T :=
  match ptr with
  | .null => None T
  | .mk v => New v

/-- `FromTuple` from `options.go`: `New value` if `present`, else `None`. -/
def FromTuple {T : Type} [Inhabited T] (value : T) (present : Bool) : Option T :=
  if present then New value else None T

/-- `IsPresent` from `options.go`. -/
def Option.IsPresent {T : Type} (o : Option T) : Bool :=
  o.present

/-- `IsNone` from `options.go`. -/
def Option.IsNone {T : Type} (o : Option T) : Bool :=
  !o.present

/-- `Unwrap` from `options.go`.  The Go method returns `o.value` when
present and otherwise panics with
`fmt.Errorf("Option[%T].Unwrap: unwrapping None value", o.value)`;
the panic is modelled as the `Except.error` branch carrying that message
(`typeName` stands for the `%T` rendering of `T`). -/
def Option.Unwrap {T : Type} (typeName : String) (o : Option T) : Except String T :=
  if o.present then
    Except.ok o.value
  else
    Except.error ("Option[" ++ typeName ++ "].Unwrap: unwrapping None value")

/-- `UnwrapOr` from `options.go`. -/
def Option.UnwrapOr {T : Type} (o : Option T) (defaultValue : T) : T :=
  if o.present then o.value else defaultValue

/-- `UnwrapOrZero` from `options.go`: the Go body is just
`return o.value` — it relies on the struct invariant for the absent case. -/
def Option.UnwrapOrZero {T : Type} (o : Option T) : T :=
  o.value

/-- `Pointer` from `options.go`: a pointer to the wrapped value when
present, nil otherwise. -/
def Option.Pointer {T : Type} (o : Option T) : Ptr T :=
  if o.present then Ptr.mk o.value else Ptr.null

/-- `Map` from `options.go`: apply `f` when present, else `None[B]()`. -/
def Map {A B : Type} [Inhabited B] (o : Option A) (f : A → B) : Option B :=
  if o.present then New (f o.value) else None B

/-- The documented struct invariant from `options.go`
(`// invariant: !present => value == <zero value of T>`). -/
def Invariant {T : Type} [Inhabited T] (o : Option T) : Prop :=
  o.present = false → o.value = (default : T)

instance {T : Type} [Inhabited T] [DecidableEq T] (o : Option T) :
    Decidable (Invariant o) := by
  unfold Invariant; infer_instance

/-- `reflect.DeepEqual` as used by `Option.Equal`: a boolean deep-equality
routine determined by the payload type.  Concrete instances below model its
documented behaviour on the concrete types where we evaluate. -/
class DeepEq (T : Type) where
  deepEqual : T → T → Bool

/-- `Equal` from `options.go`: false on a present/absent mismatch, true when
both absent, otherwise `reflect.DeepEqual` on the wrapped values. -/
def Option.Equal {T : Type} [DeepEq T] (o other : Option T) : Bool :=
  if o.present != other.present then
    false
  else if !o.present then
    true
  else
    DeepEq.deepEqual o.value other.value

/-- A JSON document, as the value tree `encoding/json` works with. -/
inductive Json where
  | null : Json
  | bool (b : Bool) : Json
  | num (n : Int) : Json
  | str (s : String) : Json
  | arr (xs : List Json) : Json
  | obj (kvs : List (String × Json)) : Json

/-- Whether a JSON document is the literal `null`. -/
def Json.isNull : Json → Bool
  | .null => true
  | _ => false

/-- The `encoding/json` behaviour at the element type `T`: how a bare `T`
marshals and unmarshals.  `Option[T]` never calls this directly; it works
through `*T` (see `encPtr`/`decPtr`). -/
structure JsonCodec (T : Type) where
  enc : T → Json
  dec : Json → Except String T

/-- `json.Marshal` at type `*T` (encoding/json pointer rule): a nil pointer
encodes to `null`, otherwise the pointed-to value encodes as `T` does. -/
def encPtr {T : Type} (c : JsonCodec T) : Ptr T → Json
  | .null => Json.null
  | .mk v => c.enc v

/-- `json.Unmarshal` at type `*T` (encoding/json pointer rule): `null`
decodes to a nil pointer; any other document is decoded as `T`, and a
decode failure propagates. -/
def decPtr {T : Type} (c : JsonCodec T) (j : Json) : Except String (Ptr T) :=
  if j.isNull then
    Except.ok Ptr.null
  else
    (c.dec j).map Ptr.mk

/-- `MarshalJSON` from `options.go`: `json.Marshal(o.Pointer())`.
(The Go method can also return the element type's marshal error; the codecs
considered here are total encoders, matching every payload type the claims
range over, so the error channel is omitted.) -/
def Option.MarshalJSON {T : Type} (c : JsonCodec T) (o : Option T) : Json :=
  encPtr c o.Pointer

/-- `UnmarshalJSON` from `options.go`: decode the input as `*T`; on failure
return the error wrapped as `Option[%T].UnmarshalJSON: %w` with the receiver
untouched; on success set the receiver to `FromPointer(p)`. -/
def Option.UnmarshalJSON {T : Type} [Inhabited T] (c : JsonCodec T)
    (typeName : String) (o : Option T) (bytes : Json) : Option T × GoError :=
  match decPtr c bytes with
  | .error e =>
      (o, GoError.err ("Option[" ++ typeName ++ "].UnmarshalJSON: " ++ e))
  | .ok p => (FromPointer p, GoError.nil)

/-- `driver.DefaultParameterConverter.ConvertValue` from `database/sql`:
a fallible conversion from a source value into the driver value universe
`DV`. -/
structure SQLDriver (Src DV : Type) where
  convertValue : Src → Except String DV

/-- The checked Go type assertion `v, ok := av.(T)` performed by `Scan`,
together with the `%#v` rendering of the asserted value used in the error
message. -/
structure SQLCast (DV T : Type) where
  cast : DV → Ptr T
  goStringOf : DV → String

/-- `Scan` from `options.go`: a nil source yields `None` with no error; a
non-nil source is converted by the driver's default parameter converter
(wrapping a conversion failure), then type-asserted to `T` (a failed
assertion yields the mismatch error naming the converted value and the
target type); on success the receiver becomes `New v`. -/
def Option.Scan {T Src DV : Type} [Inhabited T] (d : SQLDriver Src DV)
    (cst : SQLCast DV T) (typeName : String) (o : Option T) (src : Ptr Src) :
    Option T × GoError :=
  match src with
  | .null => (None T, GoError.nil)
  | .mk s =>
    match d.convertValue s with
    | .error e =>
        (o, GoError.err ("Option[" ++ typeName ++
          "].Scan: failed to convert value from SQL driver: " ++ e))
    | .ok av =>
      match cst.cast av with
      | .null =>
          (o, GoError.err ("Option[" ++ typeName ++
            "].Scan: failed to convert value " ++ cst.goStringOf av ++
            " to type " ++ typeName))
      | .mk v => (New v, GoError.nil)

/-- `Value` from `options.go` (the `driver.Valuer` side): present yields the
wrapped value, absent yields the SQL null token; it never errs. -/
def Option.Value {T : Type} (o : Option T) : Ptr T × GoError :=
  if o.present then (Ptr.mk o.value, GoError.nil) else (Ptr.null, GoError.nil)

/-! Concrete payload types, codecs and driver models used to evaluate the
abstract embedding on the inputs that the claims are tested at.  Each models
the documented behaviour of the corresponding Go stdlib facility at that
concrete type. -/

/-- `reflect.DeepEqual` at payload type `int64` (Go numbers are deeply
equal iff `==` holds, which on mathematical integers is equality). -/
instance : DeepEq Int := ⟨fun a b => decide (a = b)⟩

/-- A Go `float64` value: a finite value (held exactly), an infinity, or a
NaN.  Only comparison behaviour matters here, no arithmetic. -/
inductive GoFloat64 where
  | finite (q : Rat) : GoFloat64
  | posInf : GoFloat64
  | negInf : GoFloat64
  | nan : GoFloat64
deriving DecidableEq

/-- IEEE-754 `==` on `float64`, as used by `reflect.DeepEqual` for basic
types: finite values compare by value, infinities by sign, and NaN compares
unequal to everything — including itself. -/
def GoFloat64.goEq : GoFloat64 → GoFloat64 → Bool
  | .finite a, .finite b => decide (a = b)
  | .posInf, .posInf => true
  | .negInf, .negInf => true
  | _, _ => false

/-- The zero value of `float64` is `0`. -/
instance : Inhabited GoFloat64 := ⟨.finite 0⟩

/-- `reflect.DeepEqual` at payload type `float64`: numbers are deeply equal
iff Go `==` holds. -/
instance : DeepEq GoFloat64 := ⟨GoFloat64.goEq⟩

/-- A Go `[]int64` slice: nil, or a (possibly empty) sequence of values.
The zero value of a slice type is nil. -/
def GoIntSlice : Type := Ptr (List Int)

instance : Inhabited GoIntSlice := ⟨Ptr.null⟩

instance : DecidableEq GoIntSlice :=
  inferInstanceAs (DecidableEq (Ptr (List Int)))

/-- `reflect.DeepEqual` at payload type `[]int64`: slices are deeply equal
when both are nil, or both are non-nil with equal length and element-wise
deeply-equal entries. -/
instance : DeepEq GoIntSlice := ⟨fun a b => decide (a = b)⟩

/-- `encoding/json` decoding of a single `int64` out of a JSON document. -/
def jsonToInt : Json → Except String Int
  | .num n => Except.ok n
  | _ => Except.error "json: cannot unmarshal value into Go value of type int64"

/-- `encoding/json` decoding of the elements of a JSON array into
`[]int64`. -/
def jsonListToInts : List Json → Except String (List Int)
  | [] => Except.ok []
  | j :: rest =>
    match jsonToInt j with
    | .error e => Except.error e
    | .ok n => (jsonListToInts rest).map (fun ns => n :: ns)

/-- `encoding/json` at element type `int64`. -/
def intCodec : JsonCodec Int :=
  { enc := Json.num, dec := jsonToInt }

/-- `encoding/json` at element type `[]int64`: a nil slice marshals to
`null`; a non-nil slice marshals element-wise to an array; decoding accepts
`null` (as the nil slice) and arrays of numbers. -/
def intSliceCodec : JsonCodec GoIntSlice :=
  { enc := fun s =>
      match s with
      | .null => Json.null
      | .mk xs => Json.arr (xs.map Json.num)
    dec := fun j =>
      match j with
      | .null => Except.ok Ptr.null
      | .arr js => (jsonListToInts js).map Ptr.mk
      | _ => Except.error "json: cannot unmarshal value into Go value of type []int64" }

/-- A value in the driver value universe of `database/sql/driver`
(restricted to the two shapes the witnesses use). -/
inductive DriverVal where
  | i64 (n : Int) : DriverVal
  | text (s : String) : DriverVal
deriving DecidableEq

/-- A source value handed to `Scan`: either already driver-native, or a
value the default parameter converter rejects. -/
inductive SrcVal where
  | native (v : DriverVal) : SrcVal
  | unsupported (desc : String) : SrcVal
deriving DecidableEq

/-- `driver.DefaultParameterConverter` on this source universe: native
values pass through unchanged; unsupported values fail conversion. -/
def demoDriver : SQLDriver SrcVal DriverVal :=
  { convertValue := fun s =>
      match s with
      | .native v => Except.ok v
      | .unsupported d => Except.error ("unsupported type " ++ d) }

/-- The `%#v` rendering of a driver value, for `Scan`'s mismatch message. -/
def DriverVal.goString : DriverVal → String
  | .i64 n => toString n
  | .text s => "\"" ++ s ++ "\""

/-- The Go type assertion `av.(int64)` on the driver value universe. -/
def castToInt : SQLCast DriverVal Int :=
  { cast := fun av =>
      match av with
      | .i64 n => Ptr.mk n
      | _ => Ptr.null
    goStringOf := DriverVal.goString }

/-! The claims. -/

/-- Claim C1: for every validly constructed `Option[T]` (built via `New`,
`None`, `FromPointer`, `FromTuple`, `Map`, `UnmarshalJSON`, or `Scan`), if
the `present` flag is false then the stored value equals the zero value of
`T`; every operation of the library preserves this invariant (for
`UnmarshalJSON` and `Scan`, which may keep the receiver on their error
paths, preservation is relative to the receiver satisfying it). -/
theorem invariant_all_ops (T A Src DV : Type) [Inhabited T] [Inhabited A]
    (c : JsonCodec T) (d : SQLDriver Src DV) (cst : SQLCast DV T)
    (tn : String) :
    (∀ v : T, Invariant (New v)) ∧
    Invariant (None T) ∧
    (∀ p : Ptr T, Invariant (FromPointer p)) ∧
    (∀ (v : T) (b : Bool), Invariant (FromTuple v b)) ∧
    (∀ (o : Option A) (f : A → T), Invariant (Map o f)) ∧
    (∀ (o : Option T) (j : Json),
      Invariant o → Invariant (o.UnmarshalJSON c tn j).1) ∧
    (∀ (o : Option T) (src : Ptr Src),
      Invariant o → Invariant (o.Scan d cst tn src).1) := by
  refine ⟨?_, ?_, ?_, ?_, ?_, ?_, ?_⟩
  · intro v h
    simp [New] at h
  · intro _
    rfl
  · intro p h
    cases p with
    | null => rfl
    | mk v => simp [FromPointer, New] at h
  · intro v b h
    cases b with
    | false => rfl
    | true => simp [FromTuple, New] at h
  · intro o f h
    by_cases hp : o.present = true
    · simp [Map, hp, New] at h
    · simp [Map, hp, None]
  · intro o j ho
    unfold Option.UnmarshalJSON
    cases hd : decPtr c j with
    | error e => exact ho
    | ok p =>
      cases p with
      | null => intro _; rfl
      | mk v => intro h; simp [FromPointer, New] at h
  · intro o src ho
    cases src with
    | null => intro _; rfl
    | mk s =>
      cases hc : d.convertValue s with
      | error e =>
        simpa only [Option.Scan, hc] using ho
      | ok av =>
        cases hcast : cst.cast av with
        | null => simpa only [Option.Scan, hc, hcast] using ho
        | mk v =>
          intro h
          simp only [Option.Scan, hc, hcast] at h
          simp [New] at h

/-- Witness for C1: the invariant holds concretely for the receiver kept by
a failing `UnmarshalJSON` and a failing `Scan`, and for `None`. -/
theorem invariant_all_ops_witness :
    Invariant ((None Int).UnmarshalJSON intCodec "int64" (Json.str "x")).1 ∧
    Invariant ((None Int).Scan demoDriver castToInt "int64"
      (Ptr.mk (SrcVal.unsupported "chan int"))).1 ∧
    Invariant (None Int) := by
  refine ⟨?_, ?_, ?_⟩
  · exact (invariant_all_ops Int Int SrcVal DriverVal intCodec demoDriver
      castToInt "int64").2.2.2.2.2.1 (None Int) (Json.str "x") (by decide)
  · exact (invariant_all_ops Int Int SrcVal DriverVal intCodec demoDriver
      castToInt "int64").2.2.2.2.2.2 (None Int)
      (Ptr.mk (SrcVal.unsupported "chan int")) (by decide)
  · exact (invariant_all_ops Int Int SrcVal DriverVal intCodec demoDriver
      castToInt "int64").2.1

/-- Claim C2: for every validly constructed `Option[T]`, `UnwrapOrZero`
returns the wrapped value when present and the zero value of `T` when
absent; it never fails (it is a total function). -/
theorem unwrapOrZero_spec (T : Type) [Inhabited T] (o : Option T)
    (h : Invariant o) :
    (o.present = true → o.UnwrapOrZero = o.value) ∧
    (o.present = false → o.UnwrapOrZero = (default : T)) := by
  constructor
  · intro _
    rfl
  · intro hp
    exact h hp

/-- Witness for C2: `None[int64]().UnwrapOrZero()` is `0`, and
`New(42).UnwrapOrZero()` is `42`. -/
theorem unwrapOrZero_spec_witness :
    (None Int).UnwrapOrZero = (default : Int) ∧
    (New (42 : Int)).UnwrapOrZero = 42 := by
  constructor
  · exact (unwrapOrZero_spec Int (None Int) (by decide)).2 rfl
  · exact (unwrapOrZero_spec Int (New 42) (by decide)).1 rfl

/-- Claim C3: `Equal(a, b)` is true when both options are absent; false when
exactly one of them is present; and when both are present, it is exactly the
deep/structural equality (`reflect.DeepEqual`) of the wrapped values. -/
theorem equal_spec (T : Type) [DeepEq T] (a b : Option T) :
    (a.present = false → b.present = false → a.Equal b = true) ∧
    (a.present ≠ b.present → a.Equal b = false) ∧
    (a.present = true → b.present = true →
      a.Equal b = DeepEq.deepEqual a.value b.value) := by
  refine ⟨?_, ?_, ?_⟩
  · intro ha hb
    simp [Option.Equal, ha, hb]
  · intro hne
    have : a.present != b.present := by
      cases hpa : a.present <;> cases hpb : b.present <;>
        simp_all
    simp [Option.Equal, this]
  · intro ha hb
    simp [Option.Equal, ha, hb]

/-- Witness for C3 at `int64` payloads: two absent options are equal, a
mixed pair is not, and two present options compare by deep equality of the
wrapped values. -/
theorem equal_spec_witness :
    (None Int).Equal (None Int) = true ∧
    (New (3 : Int)).Equal (None Int) = false ∧
    (New (3 : Int)).Equal (New 3) = DeepEq.deepEqual (3 : Int) 3 := by
  refine ⟨?_, ?_, ?_⟩
  · exact (equal_spec Int (None Int) (None Int)).1 rfl rfl
  · exact (equal_spec Int (New 3) (None Int)).2.1 (by decide)
  · exact (equal_spec Int (New 3) (New 3)).2.2 rfl rfl

/-- Counterexample for C4: `Equal` is not reflexive for every payload value.
With a `float64` payload holding NaN, `reflect.DeepEqual` falls back to Go
`==`, and IEEE-754 makes `NaN == NaN` false, so
`New(math.NaN()).Equal(New(math.NaN()))` — in particular `x.Equal(x)` for
`x := New(math.NaN())` — is false. -/
theorem equal_not_reflexive_at_nan :
    (New GoFloat64.nan).Equal (New GoFloat64.nan) = false := rfl

/-- Claim C4 (amended): `Equal` is reflexive for every option whose wrapped
value is self-equal under `reflect.DeepEqual` — in particular for every
absent option, and for every present option whose payload contains no NaN
(and no non-nil function value); reflexivity fails for payloads such as
`float64` NaN.  The mismatch symmetry part holds unconditionally: for every
`v`, `New(v).Equal(None())` and `None().Equal(New(v))` are both false. -/
theorem equal_reflexive_and_mismatch (T : Type) [Inhabited T] [DeepEq T]
    (x : Option T)
    (hrefl : x.present = true → DeepEq.deepEqual x.value x.value = true) :
    x.Equal x = true ∧
    (∀ v : T, (New v).Equal (None T) = false ∧
      (None T).Equal (New v) = false) := by
  constructor
  · by_cases hp : x.present = true
    · simp [Option.Equal, hp, hrefl hp]
    · simp [Option.Equal, hp]
  · intro v
    constructor
    · simp [Option.Equal, New, None]
    · simp [Option.Equal, New, None]

/-- Witness for C4 (amended): reflexivity at a concrete non-NaN `float64`
option, and the mismatch symmetry at `3.25`. -/
theorem equal_reflexive_and_mismatch_witness :
    (New (GoFloat64.finite 2)).Equal (New (GoFloat64.finite 2)) = true ∧
    (New (GoFloat64.finite (13/4))).Equal (None GoFloat64) = false ∧
    (None GoFloat64).Equal (New (GoFloat64.finite (13/4))) = false := by
  have h := equal_reflexive_and_mismatch GoFloat64 (New (GoFloat64.finite 2))
    (by intro _; decide)
  exact ⟨h.1, (h.2 (GoFloat64.finite (13/4))).1, (h.2 (GoFloat64.finite (13/4))).2⟩

/-- Claim C5: `Unwrap` returns the wrapped value for every present option
`New(v)`, and for every absent option it panics (modelled as the
`Except.error` outcome carrying the Go panic message) and never returns a
value. -/
theorem unwrap_spec (T : Type) (tn : String) :
    (∀ v : T, (New v).Unwrap tn = Except.ok v) ∧
    (∀ o : Option T, o.present = false →
      o.Unwrap tn =
        Except.error ("Option[" ++ tn ++ "].Unwrap: unwrapping None value")) ∧
    (∀ (o : Option T) (v : T), o.present = false →
      o.Unwrap tn ≠ Except.ok v) := by
  refine ⟨?_, ?_, ?_⟩
  · intro v
    rfl
  · intro o hp
    simp [Option.Unwrap, hp]
  · intro o v hp
    simp [Option.Unwrap, hp]

/-- Witness for C5: `New(42).Unwrap()` yields `42`, and unwrapping
`None[int64]()` panics with the documented message instead of returning. -/
theorem unwrap_spec_witness :
    (New (42 : Int)).Unwrap "int64" = Except.ok 42 ∧
    (None Int).Unwrap "int64" =
      Except.error "Option[int64].Unwrap: unwrapping None value" ∧
    (None Int).Unwrap "int64" ≠ Except.ok 0 := by
  refine ⟨(unwrap_spec Int "int64").1 42, ?_, ?_⟩
  · exact (unwrap_spec Int "int64").2.1 (None Int) rfl
  · exact (unwrap_spec Int "int64").2.2 (None Int) 0 rfl

/-- Counterexample for C6: the JSON round trip does not reproduce every
option for every representable payload type.  With payload type `[]int64`
(a sequence type) and `x := New(nil-slice)`, marshalling goes through
`json.Marshal(x.Pointer())`, and a nil slice encodes to the literal `null`;
unmarshalling `null` yields the absent option, which is not equal to `x`
(the present flags differ). -/
theorem json_roundtrip_counterexample :
    (New (Ptr.null : GoIntSlice)).MarshalJSON intSliceCodec = Json.null ∧
    (None GoIntSlice).UnmarshalJSON intSliceCodec "[]int64"
        ((New (Ptr.null : GoIntSlice)).MarshalJSON intSliceCodec) =
      (None GoIntSlice, GoError.nil) ∧
    (None GoIntSlice).Equal (New (Ptr.null : GoIntSlice)) = false ∧
    None GoIntSlice ≠ New (Ptr.null : GoIntSlice) :=
  ⟨rfl, rfl, rfl, by decide⟩

/-- Claim C6 (amended): the JSON round trip reproduces the original option
exactly (into any receiver, with no error) for every validly constructed
`Option[T]` whose wrapped value's own encoding round-trips and is not the
`null` token — which covers numbers, strings, timestamps, byte-sequences
and non-nil sequences/mappings, for both the present and the absent case.
It fails for a present payload whose own encoding is `null` (e.g. a nil
slice), which decodes back to the absent option. -/
theorem json_roundtrip (T : Type) [Inhabited T] (c : JsonCodec T)
    (tn : String) (o r : Option T) (hinv : Invariant o)
    (hrt : o.present = true → c.dec (c.enc o.value) = Except.ok o.value)
    (hnn : o.present = true → (c.enc o.value).isNull = false) :
    r.UnmarshalJSON c tn (o.MarshalJSON c) = (o, GoError.nil) := by
  by_cases hp : o.present = true
  · have hm : o.MarshalJSON c = c.enc o.value := by
      simp [Option.MarshalJSON, Option.Pointer, hp, encPtr]
    have hd : decPtr c (c.enc o.value) = Except.ok (Ptr.mk o.value) := by
      simp [decPtr, hnn hp, hrt hp, Except.map]
    have : r.UnmarshalJSON c tn (o.MarshalJSON c) =
        (New o.value, GoError.nil) := by
      simp [Option.UnmarshalJSON, hm, hd, FromPointer]
    rw [this]
    cases o with
    | mk value present =>
      cases present with
      | true => rfl
      | false => simp at hp
  · have hp' : o.present = false := by
      cases h : o.present
      · rfl
      · exact absurd h hp
    have hm : o.MarshalJSON c = Json.null := by
      simp [Option.MarshalJSON, Option.Pointer, hp', encPtr]
    have : r.UnmarshalJSON c tn (o.MarshalJSON c) = (None T, GoError.nil) := by
      simp [Option.UnmarshalJSON, hm, decPtr, Json.isNull, FromPointer]
    rw [this]
    cases o with
    | mk value present =>
      cases present with
      | true => simp at hp'
      | false =>
        have : value = (default : T) := hinv rfl
        simp [None, this]

/-- Witness for C6 (amended): the round trip at `int64` payloads reproduces
`New(3)` and `None` exactly, starting from a fresh (`None`) receiver. -/
theorem json_roundtrip_witness :
    (None Int).UnmarshalJSON intCodec "int64"
        ((New (3 : Int)).MarshalJSON intCodec) = (New 3, GoError.nil) ∧
    (None Int).UnmarshalJSON intCodec "int64"
        ((None Int).MarshalJSON intCodec) = (None Int, GoError.nil) := by
  constructor
  · exact json_roundtrip Int intCodec "int64" (New 3) (None Int) (by decide)
      (fun _ => rfl) (fun _ => rfl)
  · exact json_roundtrip Int intCodec "int64" (None Int) (None Int)
      (by decide) (fun h => by simp [None] at h) (fun h => by simp [None] at h)

/-- Claim C7: unmarshalling the literal `null` yields the absent option with
no error; unmarshalling any other well-formed JSON value for `T` yields the
present option holding the decoded value with no error; and unmarshalling
input malformed for `T` returns the decode error wrapped with a message
identifying the element type `T`, discarding nothing. -/
theorem unmarshal_spec (T : Type) [Inhabited T] (c : JsonCodec T)
    (tn : String) (o : Option T) :
    o.UnmarshalJSON c tn Json.null = (None T, GoError.nil) ∧
    (∀ (j : Json) (v : T), j.isNull = false → c.dec j = Except.ok v →
      o.UnmarshalJSON c tn j = (New v, GoError.nil)) ∧
    (∀ (j : Json) (e : String), j.isNull = false → c.dec j = Except.error e →
      o.UnmarshalJSON c tn j =
        (o, GoError.err ("Option[" ++ tn ++ "].UnmarshalJSON: " ++ e))) := by
  refine ⟨rfl, ?_, ?_⟩
  · intro j v hj hv
    simp [Option.UnmarshalJSON, decPtr, hj, hv, Except.map, FromPointer]
  · intro j e hj he
    simp [Option.UnmarshalJSON, decPtr, hj, he, Except.map]

/-- Witness for C7 at `int64` payloads: `null` decodes to `None`, `3`
decodes to `New(3)`, and the malformed input `"x"` produces the wrapped
error naming the element type while the decoded option is untouched. -/
theorem unmarshal_spec_witness :
    (None Int).UnmarshalJSON intCodec "int64" Json.null =
      (None Int, GoError.nil) ∧
    (None Int).UnmarshalJSON intCodec "int64" (Json.num 3) =
      (New 3, GoError.nil) ∧
    (New (7 : Int)).UnmarshalJSON intCodec "int64" (Json.str "x") =
      (New 7, GoError.err ("Option[int64].UnmarshalJSON: " ++
        "json: cannot unmarshal value into Go value of type int64")) := by
  refine ⟨(unmarshal_spec Int intCodec "int64" (None Int)).1, ?_, ?_⟩
  · exact (unmarshal_spec Int intCodec "int64" (None Int)).2.1
      (Json.num 3) 3 rfl rfl
  · exact (unmarshal_spec Int intCodec "int64" (New 7)).2.2
      (Json.str "x") "json: cannot unmarshal value into Go value of type int64"
      rfl rfl

/-- Claim C8: `Scan` over a nil source sets the receiver to the absent
option with no error; over a non-nil source it first applies the driver's
default parameter conversion, then the checked cast to `T`, setting the
receiver to the present option holding the cast value on success; a cast
failure yields the typed error naming the converted value and the target
type `T`, and a conversion failure yields the wrapped error naming the
element type `T` (the receiver is untouched on both failures). -/
theorem scan_spec (T Src DV : Type) [Inhabited T] (d : SQLDriver Src DV)
    (cst : SQLCast DV T) (tn : String) (o : Option T) :
    o.Scan d cst tn Ptr.null = (None T, GoError.nil) ∧
    (∀ (s : Src) (av : DV) (v : T),
      d.convertValue s = Except.ok av → cst.cast av = Ptr.mk v →
      o.Scan d cst tn (Ptr.mk s) = (New v, GoError.nil)) ∧
    (∀ (s : Src) (av : DV),
      d.convertValue s = Except.ok av → cst.cast av = Ptr.null →
      o.Scan d cst tn (Ptr.mk s) =
        (o, GoError.err ("Option[" ++ tn ++ "].Scan: failed to convert value "
          ++ cst.goStringOf av ++ " to type " ++ tn))) ∧
    (∀ (s : Src) (e : String), d.convertValue s = Except.error e →
      o.Scan d cst tn (Ptr.mk s) =
        (o, GoError.err ("Option[" ++ tn ++
          "].Scan: failed to convert value from SQL driver: " ++ e))) := by
  refine ⟨rfl, ?_, ?_, ?_⟩
  · intro s av v hc hcast
    simp [Option.Scan, hc, hcast]
  · intro s av hc hcast
    simp [Option.Scan, hc, hcast]
  · intro s e hc
    simp [Option.Scan, hc]

/-- Witness for C8 at `int64` payloads over the modelled driver: a nil
source yields `None`; an `int64` source converts, casts and yields
`New(5)`; a text source converts but fails the cast to `int64` with the
mismatch error; an unconvertible source fails conversion with the wrapped
driver error.  The receiver survives both failures. -/
theorem scan_spec_witness :
    (New (9 : Int)).Scan demoDriver castToInt "int64" Ptr.null =
      (None Int, GoError.nil) ∧
    (New (9 : Int)).Scan demoDriver castToInt "int64"
        (Ptr.mk (SrcVal.native (DriverVal.i64 5))) = (New 5, GoError.nil) ∧
    (New (9 : Int)).Scan demoDriver castToInt "int64"
        (Ptr.mk (SrcVal.native (DriverVal.text "hi"))) =
      (New 9, GoError.err
        "Option[int64].Scan: failed to convert value \"hi\" to type int64") ∧
    (New (9 : Int)).Scan demoDriver castToInt "int64"
        (Ptr.mk (SrcVal.unsupported "chan int")) =
      (New 9, GoError.err
        ("Option[int64].Scan: failed to convert value from SQL driver: " ++
          "unsupported type chan int")) := by
  refine ⟨(scan_spec Int SrcVal DriverVal demoDriver castToInt "int64"
    (New 9)).1, ?_, ?_, ?_⟩
  · exact (scan_spec Int SrcVal DriverVal demoDriver castToInt "int64"
      (New 9)).2.1 (SrcVal.native (DriverVal.i64 5)) (DriverVal.i64 5) 5
      rfl rfl
  · exact (scan_spec Int SrcVal DriverVal demoDriver castToInt "int64"
      (New 9)).2.2.1 (SrcVal.native (DriverVal.text "hi"))
      (DriverVal.text "hi") rfl rfl
  · exact (scan_spec Int SrcVal DriverVal demoDriver castToInt "int64"
      (New 9)).2.2.2 (SrcVal.unsupported "chan int") "unsupported type chan int"
      rfl

/-- Claim C9: `Map` applied to an absent `Option[A]` yields the absent
`Option[B]` without invoking `f` (the result does not depend on `f` at
all), and `Map` applied to `New(v)` yields `New(f(v))`. -/
theorem map_spec (A B : Type) [Inhabited B] :
    (∀ (o : Option A) (f : A → B), o.present = false → Map o f = None B) ∧
    (∀ (o : Option A) (f g : A → B), o.present = false → Map o f = Map o g) ∧
    (∀ (v : A) (f : A → B), Map (New v) f = New (f v)) := by
  refine ⟨?_, ?_, ?_⟩
  · intro o f hp
    simp [Map, hp]
  · intro o f g hp
    simp [Map, hp]
  · intro v f
    rfl

/-- Witness for C9 at `int64` payloads: mapping over `None` yields `None`
whatever the function, and mapping the successor over `New(2)` yields
`New(3)`. -/
theorem map_spec_witness :
    Map (None Int) (fun n : Int => n + 1) = None Int ∧
    Map (None Int) (fun n : Int => n + 1) =
      Map (None Int) (fun n : Int => n * n) ∧
    Map (New (2 : Int)) (fun n : Int => n + 1) = New 3 := by
  refine ⟨?_, ?_, ?_⟩
  · exact (map_spec Int Int).1 (None Int) (fun n => n + 1) rfl
  · exact (map_spec Int Int).2.1 (None Int) (fun n => n + 1)
      (fun n => n * n) rfl
  · have h := (map_spec Int Int).2.2 2 (fun n : Int => n + 1)
    simpa using h

/-- Claim C10: whenever `UnmarshalJSON` or `Scan` returns a non-nil error,
the receiver is exactly what it was before the call — the receiver is
assigned only on the success paths. -/
theorem error_atomicity (T Src DV : Type) [Inhabited T] (c : JsonCodec T)
    (d : SQLDriver Src DV) (cst : SQLCast DV T) (tn : String)
    (o : Option T) :
    (∀ j : Json, (o.UnmarshalJSON c tn j).2 ≠ GoError.nil →
      (o.UnmarshalJSON c tn j).1 = o) ∧
    (∀ src : Ptr Src, (o.Scan d cst tn src).2 ≠ GoError.nil →
      (o.Scan d cst tn src).1 = o) := by
  constructor
  · intro j
    unfold Option.UnmarshalJSON
    cases decPtr c j with
    | error e => intro _; rfl
    | ok p => intro h; exact absurd rfl h
  · intro src
    cases src with
    | null => intro h; exact absurd rfl h
    | mk s =>
      cases hc : d.convertValue s with
      | error e =>
        intro _
        simp [Option.Scan, hc]
      | ok av =>
        cases hcast : cst.cast av with
        | null =>
          intro _
          simp [Option.Scan, hc, hcast]
        | mk v =>
          intro h
          simp [Option.Scan, hc, hcast] at h

/-- Witness for C10: a failing `UnmarshalJSON` (malformed input for
`int64`) and a failing `Scan` (cast failure) both leave the receiver
`New(7)` exactly as it was. -/
theorem error_atomicity_witness :
    ((New (7 : Int)).UnmarshalJSON intCodec "int64" (Json.str "x")).1 =
      New 7 ∧
    ((New (7 : Int)).Scan demoDriver castToInt "int64"
      (Ptr.mk (SrcVal.native (DriverVal.text "hi")))).1 = New 7 := by
  constructor
  · exact (error_atomicity Int SrcVal DriverVal intCodec demoDriver castToInt
      "int64" (New 7)).1 (Json.str "x") (by decide)
  · exact (error_atomicity Int SrcVal DriverVal intCodec demoDriver castToInt
      "int64" (New 7)).2 (Ptr.mk (SrcVal.native (DriverVal.text "hi")))
      (by decide)

end Options
